import Mathlib

/-!
Shallow embedding of the Anthropic/Bedrock content-generation adapter of
this repository: the request translator, response translator, streaming
translator, token estimator, embedding stub, model resolver and proxy
wiring, together with theorems settling the frozen claims about them.

JavaScript conventions embedded explicitly:
- a missing (`undefined`) value is `Option.none`;
- the truthiness test `if (s)` on a string holds exactly when the string is
  present and non-empty; on an object or array it always holds;
- `x || d` on a number picks `d` exactly when `x` is absent or `0`;
- machine numbers carrying token counts are `Nat`, the float-valued
  generation parameters are `Rat`.
-/

namespace AnthropicAdapter

/-- The JavaScript truthiness filter on an optional string: `some t` exactly
when the string is present and non-empty, else `none`. -/
def truthyText : Option String → Option String
  | some t => if t.isEmpty then none else some t
  | none => none

/-- Array.prototype.join with a separator: empty list gives the empty
string, otherwise the elements interleaved with the separator. -/
def joinWith (sep : String) : List String → String
  | [] => ""
  | [t] => t
  | t :: u :: rest => t ++ sep ++ joinWith sep (u :: rest)

/-- The `AnthropicModel` string enum of the generator module. -/
inductive AnthropicModel where
  | CLAUDE_3_5_SONNET
  | CLAUDE_3_5_HAIKU
  | CLAUDE_3_OPUS
  | CLAUDE_3_SONNET
  | CLAUDE_3_HAIKU
deriving DecidableEq

/-- The enum's string value: the canonical Bedrock model identifier. -/
def AnthropicModel.id : AnthropicModel → String
  | .CLAUDE_3_5_SONNET => "anthropic.claude-3-5-sonnet-20241022-v2:0"
  | .CLAUDE_3_5_HAIKU => "anthropic.claude-3-5-haiku-20241022-v1:0"
  | .CLAUDE_3_OPUS => "anthropic.claude-3-opus-20240229-v1:0"
  | .CLAUDE_3_SONNET => "anthropic.claude-3-sonnet-20240229-v1:0"
  | .CLAUDE_3_HAIKU => "anthropic.claude-3-haiku-20240307-v1:0"

/-- Normalization step of `AnthropicModelSelector.parseModelFromString`:
`modelString.toLowerCase().replace(/[-_\x5cs]/g, '')`. -/
def normalizeModelString (modelString : String) : String :=
  String.mk ((modelString.data.map Char.toLower).filter
    (fun c => ¬ (c = '-' ∨ c = '_' ∨ c.isWhitespace)))

/-- The `modelMappings` alias table of `parseModelFromString`. -/
def modelMappings : List (String × AnthropicModel) :=
  [("claude35sonnet", .CLAUDE_3_5_SONNET),
   ("claude3.5sonnet", .CLAUDE_3_5_SONNET),
   ("claude35haiku", .CLAUDE_3_5_HAIKU),
   ("claude3.5haiku", .CLAUDE_3_5_HAIKU),
   ("claude3opus", .CLAUDE_3_OPUS),
   ("claude3sonnet", .CLAUDE_3_SONNET),
   ("claude3haiku", .CLAUDE_3_HAIKU),
   ("sonnet", .CLAUDE_3_5_SONNET),
   ("haiku", .CLAUDE_3_5_HAIKU),
   ("opus", .CLAUDE_3_OPUS)]

/-- `AnthropicModelSelector.parseModelFromString`: normalize, look up the
alias table, and fall back to Claude 3.5 Sonnet (`|| default` — every table
value is a non-empty string, so `getD` is the exact embedding). -/
def parseModelFromString (modelString : String) : AnthropicModel :=
  (modelMappings.lookup (normalizeModelString modelString)).getD
    AnthropicModel.CLAUDE_3_5_SONNET

/-- The `modelMap` table of `getAnthropicModelId` in the generator. -/
def modelMap : List (String × AnthropicModel) :=
  [("gemini-2.0-flash", .CLAUDE_3_5_SONNET),
   ("gemini-1.5-pro", .CLAUDE_3_5_SONNET),
   ("gemini-1.5-flash", .CLAUDE_3_5_HAIKU),
   ("gemini-1.0-pro", .CLAUDE_3_SONNET),
   ("claude-3.5-sonnet", .CLAUDE_3_5_SONNET),
   ("claude-3.5-haiku", .CLAUDE_3_5_HAIKU),
   ("claude-3-opus", .CLAUDE_3_OPUS),
   ("claude-3-sonnet", .CLAUDE_3_SONNET),
   ("claude-3-haiku", .CLAUDE_3_HAIKU)]

/-- `getAnthropicModelId`: exact lookup of the interface-native name,
falling back to the generator's configured default model (the instance
field `this.defaultModel`, passed here as a parameter). -/
def getAnthropicModelId (defaultModel : AnthropicModel) (geminiModel : String) : String :=
  ((modelMap.lookup geminiModel).getD defaultModel).id

/-- `mapStopReason`: the total switch from remote stop reasons to native
finish reasons. -/
def mapStopReason (stopReason : String) : String :=
  if stopReason = "end_turn" then "STOP"
  else if stopReason = "max_tokens" then "MAX_TOKENS"
  else if stopReason = "stop_sequence" then "STOP"
  else "OTHER"

/-- One inline-media blob of a part (`inlineData`): mime type and base64
data, each optional in the interface schema. -/
structure InlineData where
  mimeType : Option String := none
  data : Option String := none
deriving DecidableEq

/-- One content part of the native interface: text or inline media. -/
structure Part where
  text : Option String := none
  inlineData : Option InlineData := none
deriving DecidableEq

/-- One conversation turn of the native interface (`Content`): an optional
role and an optional part list. -/
structure Content where
  role : Option String := none
  parts : Option (List Part) := none
deriving DecidableEq

/-- Truthiness of `part.text` as the source's filters use it. -/
def partTextTruthy (p : Part) : Bool :=
  (truthyText p.text).isSome

/-- One typed block of a mixed-content remote message: a text block, or an
image block `{type:'image', source:{type:'base64', media_type, data}}`. -/
inductive ContentBlock where
  | text : String → ContentBlock
  | image : (media_type : String) → (data : Option String) → ContentBlock
deriving DecidableEq

/-- The remote message content union: a plain string or a block array. -/
inductive MessageContent where
  | str : String → MessageContent
  | blocks : List ContentBlock → MessageContent
deriving DecidableEq

/-- JavaScript truthiness of a `MessageContent` value: a string is truthy
when non-empty, an array is always truthy. -/
def messageContentTruthy : MessageContent → Bool
  | .str s => ! s.isEmpty
  | .blocks _ => true

/-- Loop body state of `convertPartsToContent`: `textParts` and
`multimodalParts` threaded through the `for` loop over the parts.
On a truthy text part: pushed to `textParts` while no media has been seen,
else appended to `multimodalParts` as a text block. On an `inlineData`
part: the image block is pushed, then each accumulated text is `unshift`ed
(prepended) onto the block array in turn, and `textParts` is cleared. -/
def convertPartsToContentAux : List Part → List String → List ContentBlock → MessageContent
  | [], textParts, multimodalParts =>
    if multimodalParts.length > 0 then .blocks multimodalParts
    else .str (joinWith "" textParts)
  | part :: rest, textParts, multimodalParts =>
    match truthyText part.text with
    | some t =>
      if multimodalParts.length = 0 then
        convertPartsToContentAux rest (textParts ++ [t]) multimodalParts
      else
        convertPartsToContentAux rest textParts (multimodalParts ++ [ContentBlock.text t])
    | none =>
      match part.inlineData with
      | some d =>
        let withImage := multimodalParts ++
          [ContentBlock.image ((truthyText d.mimeType).getD "image/jpeg") d.data]
        let withTexts := textParts.foldl (fun acc t => ContentBlock.text t :: acc) withImage
        convertPartsToContentAux rest [] withTexts
      | none => convertPartsToContentAux rest textParts multimodalParts

/-- `convertPartsToContent`: a turn's parts become a plain concatenated
string when no media part appears, else a typed block array. -/
def convertPartsToContent (parts : List Part) : MessageContent :=
  convertPartsToContentAux parts [] []

/-- One message of the remote request schema. -/
structure AnthropicMessage where
  role : String
  content : MessageContent
deriving DecidableEq

/-- `convertContentsToMessages`: keep only user/model turns, map the role,
shape the parts, and drop turns whose shaped content is falsy. -/
def convertContentsToMessages (contents : List Content) : List AnthropicMessage :=
  contents.foldl (fun messages content =>
    if content.role = some "user" ∨ content.role = some "model" then
      let role := if content.role = some "model" then "assistant" else "user"
      let messageContent := convertPartsToContent (content.parts.getD [])
      if messageContentTruthy messageContent then
        messages ++ [{ role := role, content := messageContent }]
      else messages
    else messages) []

/-- The `systemInstruction` union the extractor accepts: a plain string, or
an object with an optional `.text` field and an optional `.parts` list. -/
inductive SystemInstructionValue where
  | str : String → SystemInstructionValue
  | obj : (text : Option String) → (parts : Option (List Part)) → SystemInstructionValue
deriving DecidableEq

/-- The generation-parameter object of a native request (`request.config`). -/
structure GenerationConfig where
  maxOutputTokens : Option Nat := none
  temperature : Option Rat := none
  topP : Option Rat := none
  systemInstruction : Option SystemInstructionValue := none
deriving DecidableEq

/-- A native generate-content request: model name, optional turn list,
optional generation parameters. -/
structure GenerateContentParameters where
  model : String
  contents : Option (List Content) := none
  config : Option GenerationConfig := none
deriving DecidableEq

/-- `extractSystemInstruction`: accepts a plain string (truthy only), an
object with a truthy `.text`, or an object with a `.parts` list whose
truthy texts are joined with a newline. -/
def extractSystemInstruction (config : Option GenerationConfig) : Option String :=
  match config with
  | some c =>
    match c.systemInstruction with
    | some (.str s) => if s.isEmpty then none else some s
    | some (.obj text parts) =>
      match truthyText text with
      | some t => some t
      | none =>
        match parts with
        | some ps => some (joinWith "\n" ((ps.filter partTextTruthy).map (fun p => p.text.getD "")))
        | none => none
    | none => none
  | none => none

/-- The JavaScript `x || d` default on an optional natural number: `d` when
the value is absent or zero. -/
def natOrDefault : Option Nat → Nat → Nat
  | some v, d => if v = 0 then d else v
  | none, d => d

/-- The JavaScript `x || d` default on an optional rational: `d` when the
value is absent or zero. -/
def ratOrDefault : Option Rat → Rat → Rat
  | some v, d => if v = 0 then d else v
  | none, d => d

/-- The remote request schema. `system` is present exactly when the
extracted system instruction is truthy (the `...(systemInstruction && ...)`
spread); `stream` mirrors the `...(stream && {stream: true})` spread. -/
structure AnthropicRequest where
  model : String
  messages : List AnthropicMessage
  max_tokens : Nat
  temperature : Rat
  top_p : Rat
  system : Option String := none
  stream : Bool := false
deriving DecidableEq

/-- `convertToAnthropicRequest`: translate a native request into the remote
schema. The numeric fields use `request.config?.field || default`. -/
def convertToAnthropicRequest (defaultModel : AnthropicModel)
    (request : GenerateContentParameters) (stream : Bool) : AnthropicRequest :=
  let messages := convertContentsToMessages (request.contents.getD [])
  let systemInstruction := extractSystemInstruction request.config
  { model := getAnthropicModelId defaultModel request.model,
    messages := messages,
    max_tokens := natOrDefault (request.config.bind GenerationConfig.maxOutputTokens) 4096,
    temperature := ratOrDefault (request.config.bind GenerationConfig.temperature) 0,
    top_p := ratOrDefault (request.config.bind GenerationConfig.topP) 1,
    system := truthyText systemInstruction,
    stream := stream }

/-- Token usage of a remote response. -/
structure AnthropicUsage where
  input_tokens : Nat
  output_tokens : Nat
deriving DecidableEq

/-- One content block of a non-streaming remote response. -/
structure AnthropicResponseBlock where
  type : String
  text : String
deriving DecidableEq

/-- A non-streaming remote response: the fields the translator reads. -/
structure AnthropicResponse where
  content : List AnthropicResponseBlock
  stop_reason : String
  usage : AnthropicUsage
deriving DecidableEq

/-- Native usage metadata of a translated response. -/
structure UsageMetadata where
  promptTokenCount : Nat
  candidatesTokenCount : Nat
  totalTokenCount : Nat
deriving DecidableEq

/-- One candidate of a native response. Incremental streaming frames carry
no `finishReason`. -/
structure Candidate where
  content : Content
  finishReason : Option String := none
  index : Nat
deriving DecidableEq

/-- The native generate-content response shape. Incremental streaming
frames carry no `usageMetadata`. -/
structure GenerateContentResponse where
  candidates : List Candidate
  usageMetadata : Option UsageMetadata := none
  modelVersion : String
deriving DecidableEq

/-- `convertFromAnthropicResponse`: concatenate the text blocks, map the
stop reason, and copy the token counts, totalling them exactly. -/
def convertFromAnthropicResponse (anthropicResponse : AnthropicResponse)
    (originalModel : String) : GenerateContentResponse :=
  let text := joinWith ""
    ((anthropicResponse.content.filter (fun block => block.type = "text")).map
      (fun block => block.text))
  let usageMetadata : UsageMetadata :=
    { promptTokenCount := anthropicResponse.usage.input_tokens,
      candidatesTokenCount := anthropicResponse.usage.output_tokens,
      totalTokenCount := anthropicResponse.usage.input_tokens +
        anthropicResponse.usage.output_tokens }
  { candidates := [{
      content := { parts := some [{ text := some text }], role := some "model" },
      finishReason := some (mapStopReason anthropicResponse.stop_reason),
      index := 0 }],
    usageMetadata := some usageMetadata,
    modelVersion := originalModel }

/-- The `message.usage` object a `message_start` frame may carry. -/
structure StartUsage where
  input_tokens : Option Nat := none
deriving DecidableEq

/-- One decoded streaming transport frame, after the JSON decode of
`event.chunk.bytes` (transport decoding itself is outside the adapter).
`message_start` carries the optional `message?.usage` object,
`content_block_delta` the optional `delta?.text`. -/
inductive AnthropicStreamChunk where
  | message_start : Option StartUsage → AnthropicStreamChunk
  | content_block_start
  | content_block_delta : Option String → AnthropicStreamChunk
  | content_block_stop
  | message_delta
  | message_stop
  | unknown : String → AnthropicStreamChunk
deriving DecidableEq

/-- Loop state of `processStreamResponse`: `accumulatedText`,
`inputTokens`, `outputTokens`. -/
structure StreamState where
  accumulatedText : String := ""
  inputTokens : Nat := 0
  outputTokens : Nat := 0
deriving DecidableEq

/-- One iteration of the `processStreamResponse` loop body on a decoded
chunk: the updated state and the native responses yielded for that chunk
(in order). `message_start` with a truthy usage records the input tokens;
a `content_block_delta` with truthy text yields one incremental response
carrying exactly that delta's text; `message_stop` yields the final
response with `STOP` and the usage metadata; every other chunk yields
nothing. -/
def processChunk (st : StreamState) (chunk : AnthropicStreamChunk)
    (originalModel : String) : StreamState × List GenerateContentResponse :=
  match chunk with
  | .message_start usage =>
    match usage with
    | some u => ({ st with inputTokens := u.input_tokens.getD 0 }, [])
    | none => (st, [])
  | .content_block_delta text =>
    match truthyText text with
    | some t =>
      ({ st with accumulatedText := st.accumulatedText ++ t,
                 outputTokens := st.outputTokens + 1 },
       [{ candidates := [{
            content := { parts := some [{ text := some t }], role := some "model" },
            index := 0 }],
          modelVersion := originalModel }])
    | none => (st, [])
  | .message_stop =>
    (st,
     [{ candidates := [{
          content := { parts := some [{ text := some "" }], role := some "model" },
          finishReason := some "STOP",
          index := 0 }],
        usageMetadata := some
          { promptTokenCount := st.inputTokens,
            candidatesTokenCount := st.outputTokens,
            totalTokenCount := st.inputTokens + st.outputTokens },
        modelVersion := originalModel }])
  | _ => (st, [])

/-- `processStreamResponse` over a finite decoded frame sequence: the
concatenation, in arrival order, of the responses the loop yields. -/
def processStreamResponse (chunks : List AnthropicStreamChunk)
    (originalModel : String) : List GenerateContentResponse :=
  (chunks.foldl
    (fun acc chunk =>
      let step := processChunk acc.1 chunk originalModel
      (step.1, acc.2 ++ step.2))
    (({} : StreamState), ([] : List GenerateContentResponse))).2

/-- `extractTextFromContents`: all truthy text parts of all turns, joined
with a single space. -/
def extractTextFromContents (contents : List Content) : String :=
  joinWith " "
    (((contents.flatMap (fun content => content.parts.getD [])).filter partTextTruthy).map
      (fun part => part.text.getD ""))

/-- A native count-tokens request: the field the estimator reads. -/
structure CountTokensParameters where
  contents : Option (List Content) := none
deriving DecidableEq

/-- A native count-tokens response. -/
structure CountTokensResponse where
  totalTokens : Nat
deriving DecidableEq

/-- `countTokens`: the remote service has no counting endpoint, so the
adapter estimates `Math.ceil(text.length / 4)` over the extracted text;
on `Nat` that ceiling is `(length + 3) / 4`. -/
def countTokens (request : CountTokensParameters) : CountTokensResponse :=
  let text := extractTextFromContents (request.contents.getD [])
  { totalTokens := (text.length + 3) / 4 }

/-- A native embed-content request (never inspected by this backend). -/
structure EmbedContentParameters where
  model : Option String := none
  contents : Option (List Content) := none
deriving DecidableEq

/-- A native embed-content response (never produced by this backend). -/
structure EmbedContentResponse where
  values : List Rat
deriving DecidableEq

/-- `embedContent`: the backend supports no embeddings; the call always
throws, embedded as `Except.error` with the thrown message. -/
def embedContent (_ : EmbedContentParameters) : Except String EmbedContentResponse :=
  .error "Embeddings not supported with Anthropic models. Use Amazon Titan embeddings instead."

/-- The parsed-URL record: the one field `createProxyAgent` reads. -/
structure URL where
  protocol : String
deriving DecidableEq

/-- A forwarding agent attached to the transport client. -/
inductive ProxyAgent where
  | https : String → ProxyAgent
  | http : String → ProxyAgent
deriving DecidableEq

/-- `createProxyAgent`, parameterized by the platform URL parser (whose
exceptions are the `Except.error` case): inside the `try`, an https url
yields an https agent, an http url an http agent, any other scheme `null`;
the `catch` turns any parse failure into a warning and `null`. -/
def createProxyAgent (parseURL : String → Except String URL)
    (proxyUrl : String) : Option ProxyAgent :=
  match parseURL proxyUrl with
  | .ok url =>
    if url.protocol = "https:" then some (.https proxyUrl)
    else if url.protocol = "http:" then some (.http proxyUrl)
    else none
  | .error _ => none

/-- The Bedrock client configuration the constructor assembles: the region
and the optional request handler holding the proxy agent (`none` when no
agent was attached). The environment-resolved credentials are an external
collaborator and carry no proxy-relevant state. -/
structure BedrockClientConfig where
  region : String
  requestHandler : Option ProxyAgent := none
deriving DecidableEq

/-- The constructor's environment-proxy branch: `envProxy` is the value of
the `HTTPS_PROXY || https_proxy || HTTP_PROXY || http_proxy` chain; when it
is truthy an agent is attempted, and the handler is set only when an agent
was produced. -/
def bedrockClientConfigFromEnv (parseURL : String → Except String URL)
    (region : String) (envProxy : Option String) : BedrockClientConfig :=
  match envProxy with
  | some p =>
    if p.isEmpty then { region := region }
    else { region := region, requestHandler := createProxyAgent parseURL p }
  | none => { region := region }

/-- The `AnthropicContentGenerator` constructor's client-configuration
logic: a truthy explicit `proxyUrl` takes precedence (the handler is set
only when an agent was produced), otherwise the environment chain is
consulted; `new BedrockRuntimeClient(clientConfig)` then receives this
configuration, so construction is total in the proxy URL. -/
def mkBedrockClientConfig (parseURL : String → Except String URL)
    (region : String) (proxyUrl : Option String)
    (envProxy : Option String) : BedrockClientConfig :=
  match proxyUrl with
  | some p =>
    if p.isEmpty then bedrockClientConfigFromEnv parseURL region envProxy
    else { region := region, requestHandler := createProxyAgent parseURL p }
  | none => bedrockClientConfigFromEnv parseURL region envProxy

/-- A part holding only the given text (an input builder for theorems). -/
def textPart (t : String) : Part :=
  { text := some t }

/-- A single user turn holding the given text segments (an input builder
for theorems). -/
def singleUserTextContents (texts : List String) : List Content :=
  [{ role := some "user", parts := some (texts.map textPart) }]

/-- Following the spec's words for the countTokens estimate, for comparison
with the source's `extractTextFromContents`: the total character count of
all text segments in the request's contents, and nothing else. -/
def specTotalTextChars (contents : List Content) : Nat :=
  (((contents.flatMap (fun content => content.parts.getD [])).filterMap Part.text).map
    String.length).sum

/-- A request whose generation parameters are all explicitly supplied,
temperature explicitly `0` (an input for the numeric-defaults witness). -/
def explicitNumericRequest : GenerateContentParameters :=
  { model := "claude-3.5-sonnet",
    contents := some [],
    config := some { maxOutputTokens := some 100, temperature := some 0, topP := some (1/2) } }

/-- A URL parser that fails on every input, standing for the platform
parser applied to a malformed proxy URL (an input for the proxy witness). -/
def failingURLParse : String → Except String URL :=
  fun _ => Except.error "Invalid URL"

/-- The native response the streaming loop yields for one truthy text
delta: that delta's text, no finish reason, no usage (definitionally the
object literal of the `content_block_delta` branch of `processChunk`). -/
def deltaYield (t originalModel : String) : GenerateContentResponse :=
  { candidates := [{ content := { parts := some [{ text := some t }], role := some "model" },
                     index := 0 }],
    modelVersion := originalModel }

/-- The final native response the streaming loop yields at `message_stop`:
empty text, finish reason STOP, and the accumulated usage (definitionally
the object literal of the `message_stop` branch of `processChunk`). -/
def stopYield (inputTokens outputTokens : Nat) (originalModel : String) : GenerateContentResponse :=
  { candidates := [{ content := { parts := some [{ text := some "" }], role := some "model" },
                     finishReason := some "STOP", index := 0 }],
    usageMetadata := some { promptTokenCount := inputTokens,
                            candidatesTokenCount := outputTokens,
                            totalTokenCount := inputTokens + outputTokens },
    modelVersion := originalModel }

theorem isEmpty_false_of_ne (s : String) (h : ¬ s = "") : s.isEmpty = false := by
  rw [Bool.eq_false_iff]
  intro hcontra
  exact h ((String.isEmpty_iff s).mp hcontra)

theorem joinWith_length (sep : String) :
    ∀ (l : List String), l ≠ [] →
      (joinWith sep l).length = (l.map String.length).sum + sep.length * (l.length - 1) := by
  intro l
  induction l with
  | nil => intro h; exact absurd rfl h
  | cons t rest ih =>
    intro _
    cases rest with
    | nil => simp [joinWith]
    | cons u rest2 =>
      have hstep : joinWith sep (t :: u :: rest2) = t ++ sep ++ joinWith sep (u :: rest2) := rfl
      rw [hstep, String.length_append, String.length_append, ih (by simp)]
      have h1 : (u :: rest2).length - 1 = rest2.length := by simp
      have h2 : (t :: u :: rest2).length - 1 = rest2.length + 1 := by simp
      rw [h1, h2]
      simp only [List.map_cons, List.sum_cons, Nat.mul_add, Nat.mul_one]
      ring

theorem textParts_extract (texts : List String) (h : ∀ t ∈ texts, ¬ t = "") :
    ((texts.map textPart).filter partTextTruthy).map (fun part => part.text.getD "") = texts := by
  induction texts with
  | nil => rfl
  | cons t rest ih =>
    have ht : t.isEmpty = false := isEmpty_false_of_ne t (h t (by simp))
    have hrest := ih (fun u hu => h u (by simp [hu]))
    simp [textPart, partTextTruthy, truthyText, ht, hrest]

theorem extractText_singleUser (texts : List String) (h : ∀ t ∈ texts, ¬ t = "") :
    extractTextFromContents (singleUserTextContents texts) = joinWith " " texts := by
  unfold extractTextFromContents singleUserTextContents
  simp only [List.flatMap_cons, List.flatMap_nil, List.append_nil, Option.getD_some]
  rw [textParts_extract texts h]

/-- C1: evaluation of the request translator's part shaping at the failing
input, a turn with two text segments before one media segment. The source's
`unshift` loop prepends the accumulated texts one by one, so the block
array begins with the text blocks in REVERSED relative order — the code
yields `[text "B", text "A", image]` where the claim requires
`[text "A", text "B", image]`. -/
theorem convertPartsToContent_reverses_leading_texts :
    convertPartsToContent
      [{ text := some "A" }, { text := some "B" },
       { inlineData := some { mimeType := some "image/png", data := some "AAAA" } }]
    = .blocks [.text "B", .text "A", .image "image/png" (some "AAAA")] := by
  decide

/-- C2 counterexample: a request explicitly supplying `maxOutputTokens = 0`
is translated with `max_tokens = 4096` — the explicitly supplied `0` does
not appear unchanged in the remote request, because the source applies the
defaults with `||`, which also fires on a present-but-falsy value. -/
theorem convertToAnthropicRequest_zero_max_tokens_replaced :
    (convertToAnthropicRequest .CLAUDE_3_5_SONNET
      { model := "claude-3.5-sonnet", contents := some [],
        config := some { maxOutputTokens := some 0 } } false).max_tokens = 4096 := by
  decide

/-- C2 (amended): the numeric defaults (4096, 0, 1) are applied when the
corresponding parameter is absent OR present and zero. An explicitly
supplied `0` temperature yields `0` only because the default is itself `0`;
an explicit `0` for `maxOutputTokens` or `topP` is replaced by its default;
every explicitly supplied non-zero value appears unchanged. -/
theorem convertToAnthropicRequest_numeric_defaults :
    ∀ (request : GenerateContentParameters) (stream : Bool) (d : AnthropicModel),
      (request.config.bind GenerationConfig.maxOutputTokens = none →
        (convertToAnthropicRequest d request stream).max_tokens = 4096)
      ∧ (request.config.bind GenerationConfig.maxOutputTokens = some 0 →
        (convertToAnthropicRequest d request stream).max_tokens = 4096)
      ∧ (∀ v, request.config.bind GenerationConfig.maxOutputTokens = some v → ¬ v = 0 →
        (convertToAnthropicRequest d request stream).max_tokens = v)
      ∧ (request.config.bind GenerationConfig.temperature = none →
        (convertToAnthropicRequest d request stream).temperature = 0)
      ∧ (request.config.bind GenerationConfig.temperature = some 0 →
        (convertToAnthropicRequest d request stream).temperature = 0)
      ∧ (∀ q, request.config.bind GenerationConfig.temperature = some q → ¬ q = 0 →
        (convertToAnthropicRequest d request stream).temperature = q)
      ∧ (request.config.bind GenerationConfig.topP = none →
        (convertToAnthropicRequest d request stream).top_p = 1)
      ∧ (request.config.bind GenerationConfig.topP = some 0 →
        (convertToAnthropicRequest d request stream).top_p = 1)
      ∧ (∀ q, request.config.bind GenerationConfig.topP = some q → ¬ q = 0 →
        (convertToAnthropicRequest d request stream).top_p = q) := by
  intro request stream d
  refine ⟨fun h => ?_, fun h => ?_, fun v h hv => ?_,
          fun h => ?_, fun h => ?_, fun q h hq => ?_,
          fun h => ?_, fun h => ?_, fun q h hq => ?_⟩ <;>
    simp [convertToAnthropicRequest, natOrDefault, ratOrDefault, h, *]

/-- C2 witness: at a concrete request explicitly supplying
`maxOutputTokens = 100` and `temperature = 0`, the translation keeps
`max_tokens = 100` and `temperature = 0`. -/
theorem convertToAnthropicRequest_numeric_defaults_witness :
    (convertToAnthropicRequest .CLAUDE_3_5_SONNET explicitNumericRequest false).max_tokens = 100
    ∧ (convertToAnthropicRequest .CLAUDE_3_5_SONNET explicitNumericRequest false).temperature = 0 :=
  ⟨(convertToAnthropicRequest_numeric_defaults explicitNumericRequest false
      .CLAUDE_3_5_SONNET).2.2.1 100 rfl (by decide),
   (convertToAnthropicRequest_numeric_defaults explicitNumericRequest false
      .CLAUDE_3_5_SONNET).2.2.2.2.1 rfl⟩

/-- C3 counterexample: a request with two text segments "ab" and "cd"
yields `totalTokens = 2`, while the claim's formula — the ceiling of a
quarter of the total character count of all text segments, here 4
characters — gives 1: the estimate also counts the space separator the
source inserts between segments. -/
theorem countTokens_counts_separator_spaces :
    (countTokens { contents := some (singleUserTextContents ["ab", "cd"]) }).totalTokens = 2
    ∧ (specTotalTextChars (singleUserTextContents ["ab", "cd"]) + 3) / 4 = 1 := by
  constructor
  · decide
  · decide

/-- C3 (amended): countTokens returns the ceiling of a quarter of the
character count of the SPACE-JOINED truthy text segments — the total
segment characters plus one separator per gap between consecutive
segments. On a single text segment the two formulas agree; in particular
"abcdefgh" yields 2. -/
theorem countTokens_space_join_estimate :
    (countTokens { contents := some (singleUserTextContents ["abcdefgh"]) }).totalTokens = 2
    ∧ ∀ (texts : List String), texts ≠ [] → (∀ t ∈ texts, ¬ t = "") →
        (countTokens { contents := some (singleUserTextContents texts) }).totalTokens
          = ((texts.map String.length).sum + (texts.length - 1) + 3) / 4 := by
  constructor
  · decide
  · intro texts h1 h2
    have hlen : (extractTextFromContents (singleUserTextContents texts)).length
        = (texts.map String.length).sum + (texts.length - 1) := by
      rw [extractText_singleUser texts h2, joinWith_length " " texts h1,
        show (" ").length = 1 from rfl, Nat.one_mul]
    show ((extractTextFromContents (singleUserTextContents texts)).length + 3) / 4 = _
    rw [hlen]

/-- C3 witness: at the two concrete segments "ab" and "cd" the amended
formula gives `(4 + 1 + 3) / 4 = 2`, matching the adapter. -/
theorem countTokens_space_join_estimate_witness :
    (countTokens { contents := some (singleUserTextContents ["ab", "cd"]) }).totalTokens
      = (((["ab", "cd"].map String.length).sum + (["ab", "cd"].length - 1) + 3) / 4) :=
  countTokens_space_join_estimate.2 ["ab", "cd"] (by decide) (by decide)

/-- C4: on the frame sequence `message_start(input_tokens=7)`,
`content_block_delta("Hel")`, `content_block_delta("lo")`, `message_stop`,
the stream translator emits exactly three native responses in order: the
texts "Hel" and "lo" each with no finishReason and no usage, then a final
response with empty text, finishReason STOP, promptTokens 7,
candidateTokens 2 and totalTokens 9; and in general every delta carrying
truthy text is emitted immediately as one response holding exactly that
delta's text — never the accumulated text — whatever the loop state. -/
theorem processStreamResponse_incremental_frames :
    processStreamResponse
      [.message_start (some { input_tokens := some 7 }),
       .content_block_delta (some "Hel"),
       .content_block_delta (some "lo"),
       .message_stop] "model-label"
    = [deltaYield "Hel" "model-label", deltaYield "lo" "model-label",
       stopYield 7 2 "model-label"]
    ∧ ∀ (st : StreamState) (t originalModel : String), ¬ t = "" →
        processChunk st (.content_block_delta (some t)) originalModel
        = ({ accumulatedText := st.accumulatedText ++ t,
             inputTokens := st.inputTokens,
             outputTokens := st.outputTokens + 1 },
           [deltaYield t originalModel]) := by
  constructor
  · decide
  · intro st t originalModel h
    simp [processChunk, deltaYield, truthyText, isEmpty_false_of_ne t h]

/-- C4 witness: one delta step at a concrete non-empty state: the emitted
response carries exactly "llo", not the accumulated "Hello". -/
theorem processStreamResponse_incremental_frames_witness :
    processChunk { accumulatedText := "He", inputTokens := 7, outputTokens := 1 }
      (.content_block_delta (some "llo")) "m"
    = ({ accumulatedText := "Hello", inputTokens := 7, outputTokens := 2 },
       [deltaYield "llo" "m"]) := by
  exact processStreamResponse_incremental_frames.2
    { accumulatedText := "He", inputTokens := 7, outputTokens := 1 } "llo" "m" (by decide)

/-- C5: `resolve("claude-3.5-sonnet")`, `resolve("claude35sonnet")` and
`resolve("sonnet")` all return the same model, the canonical Claude 3.5
Sonnet identifier. -/
theorem parseModelFromString_alias_equivalence :
    parseModelFromString "claude-3.5-sonnet" = parseModelFromString "claude35sonnet"
    ∧ parseModelFromString "claude35sonnet" = parseModelFromString "sonnet"
    ∧ parseModelFromString "sonnet" = AnthropicModel.CLAUDE_3_5_SONNET
    ∧ AnthropicModel.CLAUDE_3_5_SONNET.id = "anthropic.claude-3-5-sonnet-20241022-v2:0" := by
  refine ⟨by decide, by decide, by decide, rfl⟩

/-- C6: model resolution is total and never fails: an input matching no
normalized alias resolves to the fixed default Claude 3.5 Sonnet — in
particular "totally-unknown-model" — and the generator's model-id lookup
likewise falls back to its configured default on an unknown name. -/
theorem parseModelFromString_default_fallback :
    parseModelFromString "totally-unknown-model" = AnthropicModel.CLAUDE_3_5_SONNET
    ∧ (∀ s, modelMappings.lookup (normalizeModelString s) = none →
        parseModelFromString s = AnthropicModel.CLAUDE_3_5_SONNET)
    ∧ (∀ geminiModel d, modelMap.lookup geminiModel = none →
        getAnthropicModelId d geminiModel = d.id) := by
  refine ⟨by decide, fun s h => ?_, fun geminiModel d h => ?_⟩
  · simp [parseModelFromString, h]
  · simp [getAnthropicModelId, h]

/-- C6 witness: the concrete unknown input "gpt-4" resolves to the default
in both lookup paths. -/
theorem parseModelFromString_default_fallback_witness :
    parseModelFromString "gpt-4" = AnthropicModel.CLAUDE_3_5_SONNET
    ∧ getAnthropicModelId AnthropicModel.CLAUDE_3_OPUS "gpt-4"
      = AnthropicModel.CLAUDE_3_OPUS.id :=
  ⟨parseModelFromString_default_fallback.2.1 "gpt-4" (by decide),
   parseModelFromString_default_fallback.2.2 "gpt-4" AnthropicModel.CLAUDE_3_OPUS (by decide)⟩

/-- C7: the non-streaming stop-reason mapping is total over all strings:
end_turn to STOP, max_tokens to MAX_TOKENS, stop_sequence to STOP, and
every other value to OTHER (never an error). -/
theorem mapStopReason_total :
    mapStopReason "end_turn" = "STOP"
    ∧ mapStopReason "max_tokens" = "MAX_TOKENS"
    ∧ mapStopReason "stop_sequence" = "STOP"
    ∧ ∀ s, ¬ s = "end_turn" → ¬ s = "max_tokens" → ¬ s = "stop_sequence" →
        mapStopReason s = "OTHER" := by
  refine ⟨rfl, rfl, rfl, fun s h1 h2 h3 => ?_⟩
  simp [mapStopReason, h1, h2, h3]

/-- C7 witness: the unrecognized stop reason "tool_use" maps to OTHER. -/
theorem mapStopReason_total_witness : mapStopReason "tool_use" = "OTHER" :=
  mapStopReason_total.2.2.2 "tool_use" (by decide) (by decide) (by decide)

/-- C8: on the non-streaming path the native usage always satisfies
`totalTokens = input_tokens + output_tokens` exactly; the concrete remote
response with stop_reason max_tokens and usage {10, 5} yields finishReason
MAX_TOKENS and totalTokens 15. -/
theorem convertFromAnthropicResponse_usage_totals :
    (∀ (resp : AnthropicResponse) (originalModel : String),
      (convertFromAnthropicResponse resp originalModel).usageMetadata
        = some { promptTokenCount := resp.usage.input_tokens,
                 candidatesTokenCount := resp.usage.output_tokens,
                 totalTokenCount := resp.usage.input_tokens + resp.usage.output_tokens })
    ∧ convertFromAnthropicResponse
        { content := [{ type := "text", text := "out" }], stop_reason := "max_tokens",
          usage := { input_tokens := 10, output_tokens := 5 } } "m"
      = { candidates :=
            [{ content := { parts := some [{ text := some "out" }], role := some "model" },
               finishReason := some "MAX_TOKENS", index := 0 }],
          usageMetadata := some { promptTokenCount := 10, candidatesTokenCount := 5,
                                  totalTokenCount := 15 },
          modelVersion := "m" } :=
  ⟨fun resp originalModel => rfl, by decide⟩

/-- C9: embedContent fails on every input with the unsupported-capability
error — it never returns a successful embedding result. -/
theorem embedContent_always_fails :
    (∀ (request : EmbedContentParameters),
      embedContent request = Except.error
        "Embeddings not supported with Anthropic models. Use Amazon Titan embeddings instead.")
    ∧ ∀ (request : EmbedContentParameters) (response : EmbedContentResponse),
        ¬ embedContent request = Except.ok response := by
  refine ⟨fun request => rfl, fun request response h => ?_⟩
  simp [embedContent] at h

/-- C10: for every proxy URL whose parse fails (the platform URL
constructor throws, caught by `createProxyAgent`), no agent is produced and
the Bedrock client configuration is still assembled, with no request
handler attached — whether the malformed URL was supplied explicitly or
through the proxy environment chain. Construction itself is a total
function of the proxy inputs, so it never throws on account of the proxy
URL. -/
theorem mkBedrockClientConfig_malformed_proxy_degrades :
    ∀ (parseURL : String → Except String URL) (region proxyUrl : String)
      (envProxy : Option String) (e : String),
      parseURL proxyUrl = Except.error e → ¬ proxyUrl = "" →
      createProxyAgent parseURL proxyUrl = none
      ∧ mkBedrockClientConfig parseURL region (some proxyUrl) envProxy
        = { region := region, requestHandler := none }
      ∧ mkBedrockClientConfig parseURL region none (some proxyUrl)
        = { region := region, requestHandler := none } := by
  intro parseURL region proxyUrl envProxy e hparse hne
  have hagent : createProxyAgent parseURL proxyUrl = none := by
    simp [createProxyAgent, hparse]
  have hempty : proxyUrl.isEmpty = false := isEmpty_false_of_ne proxyUrl hne
  refine ⟨hagent, ?_, ?_⟩
  · simp [mkBedrockClientConfig, hempty, hagent]
  · simp [mkBedrockClientConfig, bedrockClientConfigFromEnv, hempty, hagent]

/-- C10 witness: with a parser failing on the concrete malformed URL
"not a url", both the explicit-proxy and the environment-proxy paths
complete construction with no proxy attached. -/
theorem mkBedrockClientConfig_malformed_proxy_degrades_witness :
    createProxyAgent failingURLParse "not a url" = none
    ∧ mkBedrockClientConfig failingURLParse "us-east-1" (some "not a url") none
      = { region := "us-east-1", requestHandler := none }
    ∧ mkBedrockClientConfig failingURLParse "us-east-1" none (some "not a url")
      = { region := "us-east-1", requestHandler := none } :=
  mkBedrockClientConfig_malformed_proxy_degrades failingURLParse "us-east-1" "not a url"
    none "Invalid URL" rfl (by decide)

end AnthropicAdapter
